import Mathlib

/-
Shallow embedding of the SharePoint-to-Curate transfer server
(src/main.py, src/uploader.py, src/graph_tools.py).

Remote calls are modelled by an oracle environment (Env below) that fixes
the outcome of every external interaction; each embedded function returns
the list of externally visible events it performs together with its
Python return value. Python exceptions are modelled with Except: a
function whose source can let an exception escape returns
Except String - ; a function whose whole body is wrapped in a
try/except that converts the exception to a result dict returns the
result type directly.
-/

namespace CurateUpload

/-- Outcome of one call to graph_tools.update_drive_item_metadata
(the source-item status PATCH, src/graph_tools.py lines 151-194).
The Python function returns a success dict on HTTP 200 and an error dict
otherwise; it has no exception handler, so a transport-level exception
(for example a connection error raised by requests.patch) propagates to
the caller. -/
inductive MetaOutcome where
  | ok200
  | errNon200 (msg : String)
  | raised (msg : String)
deriving DecidableEq, Repr

/-- Outcome of uploader.create_empty_folder (src/uploader.py lines
203-238): the whole call is wrapped in try/except requests.RequestException,
so it never raises; it returns either a success dict whose data carries
the created node UUID (data.Children[0].Uuid) or an error dict. -/
inductive RestOutcome where
  | okData (uuid : String)
  | errData (msg : String)
deriving DecidableEq, Repr

/-- Outcome of uploader.update_user_meta (src/uploader.py lines 240-283):
wrapped in try/except requests.RequestException, never raises, returns a
success dict or an error dict. -/
inductive TagOutcome where
  | okTag
  | errTag (msg : String)
deriving DecidableEq, Repr

/-- Outcome of the PUT to the presigned URL inside
uploader.stream_graph_file_to_s3 (src/uploader.py lines 137-154): success
with a status code, or an httpx.HTTPStatusError, or an httpx.RequestError;
the latter two are caught there and turned into error dicts. -/
inductive StreamPutOutcome where
  | okCode (code : Nat)
  | httpStatusErr (msg : String)
  | requestErr (msg : String)
deriving DecidableEq, Repr

/-- Externally visible actions performed by the embedded code. -/
inductive Event where
  | statusWrite (spId status : String)
  | createFolder (path : String)
  | tagNode (uuid : String)
  | presignCall (path : String)
  | streamOpen (url : String)
  | streamPut (path contentLength : String)
  | bufGet (url : String)
  | tempCreate
  | s3Put (key : String)
  | tempRemove
deriving DecidableEq, Repr

/-- One entry of the Microsoft Graph children listing, with exactly the
fields src/main.py lines 212-216 reads: id, parentReference.driveId,
name, the presence of a folder facet, and folder.childCount. -/
structure ChildEntry where
  id : String
  driveId : String
  name : String
  isFolder : Bool
  childCount : Nat
deriving DecidableEq, Repr

/-- Oracle fixing the outcome of every external interaction. -/
structure Env where
  metaWrite : String → String → MetaOutcome
  folderCreate : String → RestOutcome
  tagMeta : String → TagOutcome
  presignOk : String → Bool
  streamGetOk : String → Bool
  graphContentLen : String → Option String
  streamPutRes : String → StreamPutOutcome
  bufDownload : String → Option Nat
  bufHeaderLen : String → Nat
  diskBytes : Nat → Nat
  putObjectOk : String → Bool
  listOk : String → Bool
  childrenOf : String → List ChildEntry

/-- The models of src/main.py lines 42-44. -/
structure SharepointDetails where
  drivePath : String
  siteId : String
deriving DecidableEq, Repr

/-- The models of src/main.py lines 38-40. -/
structure CurateDetails where
  apiKey : String
  siteUrl : String
deriving DecidableEq, Repr

/-- The models of src/main.py lines 54-56. -/
structure UserInfo where
  name : String
  email : String
deriving DecidableEq, Repr

/-- The UploadItem model of src/main.py lines 46-52. All six fields are
required by pydantic; fileSize is a decimal string in the source and is
modelled as the number it denotes. -/
structure UploadItem where
  id : String
  spId : String
  driveId : String
  name : String
  fileSize : Nat
  type : String
deriving DecidableEq, Repr

/-- Return dicts of the transfer engine (src/uploader.py): every return
carries success and item; status and error are present on some paths
only. -/
structure UploadResult where
  success : Bool
  status : Option Nat
  item : String
  error : Option String
deriving DecidableEq, Repr

/-- Return dict of main.process_item: success plus either the uploaded
item path or an error message. -/
structure ItemResult where
  success : Bool
  item : Option String
  message : Option String
deriving DecidableEq, Repr

/-- The default multipart threshold of uploader.upload_graph_file_to_s3
(src/uploader.py line 29): 100 MiB. -/
def multipartThreshold : Nat := 100 * 1024 * 1024

/-- The hard size ceiling of main.process_item (src/main.py line 149):
1 GiB. -/
def sizeCeiling : Nat := 1 * 1024 * 1024 * 1024

/-- The rejection message of src/main.py line 150. -/
def sizeLimitMsg : String :=
  "File size is too large. Please use the Soteria+ command line client or sftp for uploads over 10gb."

/-- The key prefix used by both destination-store paths
(src/uploader.py lines 84 and 176). -/
def quarantineKey (path : String) : String :=
  "quarantine/SharePoint Uploads/" ++ path

/-- Embedding of uploader.upload_large_graph_file_to_s3 (src/uploader.py
lines 69-133), the buffered path. The whole body is wrapped in
try/except Exception, so the function never raises. The downloaded byte
count is len(graph_response.content); the temporary file is written with
delete=False and the on-disk size is compared against that same length
(line 103); os.unlink runs only after a successful put_object (line 126),
so no branch removes the temporary file on failure. The HTTP
Content-Length header of the download is never consulted on this path. -/
def upload_large_graph_file_to_s3 (env : Env) (graphFileUrl curatePath : String) :
    List Event × UploadResult :=
  let key := quarantineKey curatePath
  match env.bufDownload graphFileUrl with
  | none =>
      ([Event.bufGet graphFileUrl],
       { success := false, status := some 500, item := curatePath,
         error := some "request to Graph API failed" })
  | some total =>
      if total = 0 then
        ([Event.bufGet graphFileUrl],
         { success := false, status := some 500, item := curatePath,
           error := some "File size is 0" })
      else
        let disk := env.diskBytes total
        if disk ≠ total then
          ([Event.bufGet graphFileUrl, Event.tempCreate],
           { success := false, status := some 500, item := curatePath,
             error := some ("File size mismatch: expected " ++ toString total ++
               ", got " ++ toString disk) })
        else if env.putObjectOk key then
          ([Event.bufGet graphFileUrl, Event.tempCreate, Event.s3Put key, Event.tempRemove],
           { success := true, status := some 200, item := curatePath, error := none })
        else
          ([Event.bufGet graphFileUrl, Event.tempCreate, Event.s3Put key],
           { success := false, status := some 500, item := curatePath,
             error := some "put_object failed" })

/-- Embedding of uploader.upload_graph_file_to_s3 (src/uploader.py lines
29-66). Files at or above the threshold take the buffered path; below it,
build_presigned_put_url is called before the try block (a signing failure
re-raises, line 201), then the Graph content stream is opened and piped by
stream_graph_file_to_s3. The except clause at line 64 catches only
httpx.HTTPStatusError, so an httpx.RequestError raised while opening the
GET stream propagates to the caller. -/
def upload_graph_file_to_s3 (env : Env) (graphFileUrl curatePath : String)
    (fileSize : Nat) (threshold : Nat) : List Event × Except String UploadResult :=
  if fileSize ≥ threshold then
    let r := upload_large_graph_file_to_s3 env graphFileUrl curatePath
    (r.1, Except.ok r.2)
  else
    if env.presignOk curatePath then
      if env.streamGetOk graphFileUrl then
        let cl := (env.graphContentLen graphFileUrl).getD "0"
        let evs := [Event.presignCall curatePath, Event.streamOpen graphFileUrl,
          Event.streamPut curatePath cl]
        match env.streamPutRes curatePath with
        | StreamPutOutcome.okCode c =>
            (evs, Except.ok
              { success := true, status := some c, item := curatePath, error := none })
        | StreamPutOutcome.httpStatusErr m =>
            (evs, Except.ok
              { success := false, status := none, item := curatePath, error := some m })
        | StreamPutOutcome.requestErr m =>
            (evs, Except.ok
              { success := false, status := none, item := curatePath, error := some m })
      else
        ([Event.presignCall curatePath, Event.streamOpen graphFileUrl],
         Except.error "httpx.RequestError while opening Graph content stream")
    else
      ([Event.presignCall curatePath], Except.error "Error generating presigned URL")

/-- The Graph content URL built at src/main.py line 151. -/
def graphContentUrl (siteId driveId itemId : String) : String :=
  "https://graph.microsoft.com/v1.0/sites/" ++ siteId ++ "/drives/" ++ driveId ++
    "/items/" ++ itemId ++ "/content"

/-- The tail of main.process_item (src/main.py lines 167-175): convert
the transfer-engine outcome into the item result dict. A raised exception
or a failed upload result becomes success False with a message; note that
line 170 formats upload_result.get of the error key, which is present on
every failure dict of the engine. -/
def uploadResultToItemResult : Except String UploadResult → ItemResult
  | Except.error m => { success := false, item := none, message := some m }
  | Except.ok r =>
      if r.success then { success := true, item := some r.item, message := none }
      else { success := false, item := none,
             message := some ("Upload failed: " ++ r.error.getD "None") }

/-- Embedding of main.process_item (src/main.py lines 128-175). The whole
body is wrapped in try/except Exception and the handler returns a dict
with success False and the exception text under the message key, so the
function never raises. The 1 GiB ceiling is checked before any external
call. A contributor-tag failure (src/main.py lines 160-162) raises and is
converted into a failed item result. The failure dicts of
create_empty_folder and update_user_meta carry their text under the
error key (src/uploader.py lines 238 and 283), but lines 154 and 162
format r.get of the absent message key, so these exception texts always
embed the literal None rather than the remote error text. -/
def process_item (env : Env) (sp : SharepointDetails) (curate : CurateDetails)
    (user : UserInfo) (item : UploadItem) (folder : Option String)
    (containerFolderName : String) : List Event × ItemResult :=
  if sizeCeiling < item.fileSize then
    ([], { success := false, item := none, message := some sizeLimitMsg })
  else
    let streamUrl := graphContentUrl sp.siteId item.driveId item.id
    let ev1 := [Event.createFolder containerFolderName]
    match env.folderCreate containerFolderName with
    | RestOutcome.errData _ =>
        (ev1,
         { success := false, item := none,
           message := some "Error creating scoped upload folder: None" })
    | RestOutcome.okData uuid =>
        if uuid = "" then
          (ev1,
           { success := false, item := none,
             message := some "Error creating scoped upload folder: No UUID returned" })
        else
          let ev2 := ev1 ++ [Event.tagNode uuid]
          match env.tagMeta uuid with
          | TagOutcome.errTag _ =>
              (ev2,
               { success := false, item := none,
                 message := some "Error updating user meta: None" })
          | TagOutcome.okTag =>
              let path :=
                match folder with
                | some f => containerFolderName ++ "/" ++ f ++ "/" ++ item.name
                | none => containerFolderName ++ "/" ++ item.name
              let up := upload_graph_file_to_s3 env streamUrl path item.fileSize
                multipartThreshold
              (ev2 ++ up.1, uploadResultToItemResult up.2)

/-- The message of the pydantic ValidationError raised at src/main.py line
216: the UploadItem model declares fileSize as a required field, and the
constructor call there omits it, so every attempt to synthesize a child
UploadItem raises before process_item can be invoked. -/
def pydanticValidationMsg : String :=
  "1 validation error for UploadItem: fileSize field required"

/-- The message of the AttributeError raised at src/main.py line 203 when
process_folder is invoked recursively: the recursive call at line 214
passes the raw listing dict as folder_item, and evaluating
folder_item.name on a plain dict raises AttributeError. -/
def dictAttributeErrMsg : String :=
  "AttributeError: dict object has no attribute name"

/-- Sequencing of the child loop of src/main.py lines 212-218: run the
step for each child in order, stopping at the first child whose step
raises (the exception is re-raised by the except clause at lines 219-221
of process_folder). -/
def foldChildren (step : ChildEntry → List Event × Except String Unit) :
    List ChildEntry → List Event × Except String Unit
  | [] => ([], Except.ok ())
  | c :: rest =>
      let r := step c
      match r.2 with
      | Except.error e => (r.1, Except.error e)
      | Except.ok _ =>
          let rr := foldChildren step rest
          (r.1 ++ rr.1, rr.2)

/-- Embedding of main.process_folder (src/main.py lines 177-221). The
viaDict flag is false for the call from upload_task (which passes a
pydantic UploadItem) and true for the recursive call at line 214 (which
passes the raw listing dict): in the latter case the attribute accesses
folder_item.name at line 203 raises AttributeError right after the
container folder has been created and tagged. A file child is turned into
an UploadItem at line 216 with the required fileSize field missing, so
pydantic raises a ValidationError before process_item is reached. A child
that is a folder with childCount zero matches neither branch of the loop
and is skipped. Exceptions propagate to the caller (the except clause
re-raises). The fuel argument bounds the recursion depth of the
embedding; every recursive call of the source dies at line 203, so any
fuel of at least two gives the source behavior. The failure dicts of
create_empty_folder and update_user_meta carry their text under the
error key, but lines 193, 201 and 205 format r.get of the absent message
key, so these exception texts always embed the literal None rather than
the remote error text. -/
def process_folder (env : Env) (fuel : Nat) (sp : SharepointDetails)
    (curate : CurateDetails) (user : UserInfo) (viaDict : Bool)
    (folderName folderId : String) (containerFolderName : String) :
    List Event × Except String Unit :=
  match fuel with
  | 0 => ([], Except.error "recursion limit reached")
  | Nat.succ f =>
      let ev1 := [Event.createFolder containerFolderName]
      match env.folderCreate containerFolderName with
      | RestOutcome.errData _ =>
          (ev1, Except.error "Error creating container folder: None")
      | RestOutcome.okData uuid =>
          if uuid = "" then
            (ev1, Except.error "Error creating container folder: No UUID returned")
          else
            let ev2 := ev1 ++ [Event.tagNode uuid]
            match env.tagMeta uuid with
            | TagOutcome.errTag _ =>
                (ev2, Except.error "Error updating user meta for container folder: None")
            | TagOutcome.okTag =>
                if viaDict then
                  (ev2, Except.error dictAttributeErrMsg)
                else
                  let subPath := containerFolderName ++ "/" ++ folderName
                  let ev3 := ev2 ++ [Event.createFolder subPath]
                  match env.folderCreate subPath with
                  | RestOutcome.errData _ =>
                      (ev3, Except.error "Error creating subfolder: None")
                  | RestOutcome.okData uuid2 =>
                      if uuid2 = "" then
                        (ev3, Except.error "Error creating subfolder: No UUID returned")
                      else
                        if env.listOk folderId then
                          let r := foldChildren (fun c =>
                            if c.isFolder && 0 < c.childCount then
                              process_folder env f sp curate user true c.name c.id
                                containerFolderName
                            else if !c.isFolder then
                              ([], Except.error pydanticValidationMsg)
                            else
                              ([], Except.ok ())) (env.childrenOf folderId)
                          (ev3 ++ r.1, r.2)
                        else
                          (ev3, Except.error "Error listing folder children")

/-- The status write performed inside the per-item exception handler of
main.upload_task (src/main.py line 120). If this write itself raises,
the exception escapes the per-item handler and the whole loop; the outer
handler at lines 123-125 re-raises it, ending the batch. -/
def handlerWrite (env : Env) (spId msg : String) : List Event × Except String Unit :=
  let st := "Failed: " ++ msg
  match env.metaWrite spId st with
  | MetaOutcome.raised m2 => ([Event.statusWrite spId st], Except.error m2)
  | _ => ([Event.statusWrite spId st], Except.ok ())

/-- The terminal status write of main.upload_task (src/main.py line 117);
if it raises, the per-item handler performs one more Failed write via
handlerWrite. -/
def writeTerminal (env : Env) (spId status : String) : List Event × Except String Unit :=
  match env.metaWrite spId status with
  | MetaOutcome.raised m =>
      let h := handlerWrite env spId m
      (Event.statusWrite spId status :: h.1, h.2)
  | _ => ([Event.statusWrite spId status], Except.ok ())

/-- One pass of the per-item loop of main.upload_task (src/main.py lines
103-120): write Initiating; dispatch to process_folder or process_item;
derive the terminal status; write it. The dict returned by process_item
carries its failure text under the message key, but line 113 reads the
absent error key, so a failed file item is tagged with the literal status
Failed: None. Any exception inside the loop body is caught by the
per-item handler, which writes a Failed status; an exception raised by
that write escapes the loop (an error result here). -/
def processOneItem (env : Env) (fuel : Nat) (sp : SharepointDetails)
    (curate : CurateDetails) (user : UserInfo) (containerFolderName : String)
    (item : UploadItem) : List Event × Except String Unit :=
  let evInit := [Event.statusWrite item.spId "Initiating"]
  match env.metaWrite item.spId "Initiating" with
  | MetaOutcome.raised m =>
      let h := handlerWrite env item.spId m
      (evInit ++ h.1, h.2)
  | _ =>
      if item.type == "Folder" then
        let pf := process_folder env fuel sp curate user false item.name item.id
          containerFolderName
        match pf.2 with
        | Except.ok _ =>
            let w := writeTerminal env item.spId "Success"
            (evInit ++ pf.1 ++ w.1, w.2)
        | Except.error e =>
            let h := handlerWrite env item.spId e
            (evInit ++ pf.1 ++ h.1, h.2)
      else
        let pi := process_item env sp curate user item none containerFolderName
        let st := if pi.2.success then "Success" else "Failed: None"
        let w := writeTerminal env item.spId st
        (evInit ++ pi.1 ++ w.1, w.2)

/-- Embedding of main.upload_task (src/main.py lines 80-125): the items
of the batch are processed strictly in order by processOneItem; an
exception escaping one pass ends the loop and is re-raised by the outer
handler at lines 123-125. -/
def upload_task (env : Env) (fuel : Nat) (sp : SharepointDetails)
    (curate : CurateDetails) (user : UserInfo) (containerFolderName : String) :
    List UploadItem → List Event × Except String Unit
  | [] => ([], Except.ok ())
  | item :: rest =>
      let itemRun := processOneItem env fuel sp curate user containerFolderName item
      match itemRun.2 with
      | Except.error e => (itemRun.1, Except.error e)
      | Except.ok _ =>
          let r := upload_task env fuel sp curate user containerFolderName rest
          (itemRun.1 ++ r.1, r.2)

/-- The statuses written onto the source item with the given list-item id,
in the order of the trace. -/
def statusWritesFor (spId : String) (evs : List Event) : List String :=
  evs.filterMap (fun e =>
    match e with
    | Event.statusWrite s st => if s = spId then some st else none
    | _ => none)

/-- A status string is terminal when it is not the initial Initiating
marker; the code only ever writes Initiating, Success, or a string of the
form Failed: reason (src/main.py lines 106, 110, 113, 117, 120). -/
def isTerminalStatus (st : String) : Bool :=
  !(st == "Initiating")

/-- The terminal status writes of the trace for one source item. -/
def terminalWritesFor (spId : String) (evs : List Event) : List String :=
  (statusWritesFor spId evs).filter (fun st => isTerminalStatus st)

/-- True exactly for source status-write events. -/
def isStatusEvent : Event → Bool
  | Event.statusWrite _ _ => true
  | _ => false

/-- Events that move or request file content or touch the destination
object store: the content GETs, the presigned-URL issuance, and the PUTs. -/
def isTransferEvent : Event → Bool
  | Event.presignCall _ => true
  | Event.streamOpen _ => true
  | Event.streamPut _ _ => true
  | Event.bufGet _ => true
  | Event.s3Put _ => true
  | _ => false

/-- Events that actually attempt an upload to the destination store. -/
def isUploadAttempt : Event → Bool
  | Event.streamPut _ _ => true
  | Event.s3Put _ => true
  | _ => false

/-- The logical paths at which folder creation was requested, in trace
order. -/
def createdFolderPaths (evs : List Event) : List String :=
  evs.filterMap (fun e =>
    match e with
    | Event.createFolder p => some p
    | _ => none)

/-- True when a run created its temporary file and did not remove it. -/
def tempLeaked (evs : List Event) : Bool :=
  (evs.contains Event.tempCreate) && !(evs.contains Event.tempRemove)

/-- True when an embedded computation finished without a Python
exception. -/
def exceptOk : Except String Unit → Bool
  | Except.ok _ => true
  | Except.error _ => false

/-- The text of the Python exception that escaped, when one did. -/
def exceptErrMsg : Except String Unit → Option String
  | Except.error m => some m
  | Except.ok _ => none

/-- The transfer engine took the buffered (download-then-upload) path:
its very first action is the full requests.get of the content URL. -/
def usedBufferedPath (url : String) (evs : List Event) : Prop :=
  Event.bufGet url ∈ evs

/-- The transfer engine took the streaming path: it asks for a presigned
PUT URL for the destination path (src/uploader.py line 58). -/
def usedStreamingPath (path : String) (evs : List Event) : Prop :=
  Event.presignCall path ∈ evs

/-- The environment never lets a source status write raise a transport
exception (the writes may still fail with non-2xx results). -/
def metaNeverRaises (env : Env) : Prop :=
  ∀ s st m, env.metaWrite s st ≠ MetaOutcome.raised m

/-- Fixture: sharepoint details used by concrete runs. -/
def sp0 : SharepointDetails := { drivePath := "Documents", siteId := "site0" }

/-- Fixture: curate details used by concrete runs. -/
def cur0 : CurateDetails := { apiKey := "key0", siteUrl := "curate.example" }

/-- Fixture: submitting user used by concrete runs. -/
def user0 : UserInfo := { name := "Ada", email := "ada@example.org" }

/-- Fixture: an environment in which every external call succeeds. -/
def okEnv : Env :=
  { metaWrite := fun _ _ => MetaOutcome.ok200
    folderCreate := fun _ => RestOutcome.okData "uuid-1"
    tagMeta := fun _ => TagOutcome.okTag
    presignOk := fun _ => true
    streamGetOk := fun _ => true
    graphContentLen := fun _ => some "42"
    streamPutRes := fun _ => StreamPutOutcome.okCode 200
    bufDownload := fun _ => some 1000
    bufHeaderLen := fun _ => 1000
    diskBytes := fun n => n
    putObjectOk := fun _ => true
    listOk := fun _ => true
    childrenOf := fun _ => [] }

/-- Fixture: a buffered download whose body is 100 bytes while the HTTP
Content-Length header announces 200 bytes; disk and destination behave. -/
def envC4 : Env :=
  { okEnv with bufDownload := fun _ => some 100, bufHeaderLen := fun _ => 200 }

/-- Fixture: a buffered download of 10 bytes of which only 5 reach the
temporary file. -/
def envC4w : Env :=
  { okEnv with bufDownload := fun _ => some 10, diskBytes := fun _ => 5 }

/-- Fixture: a buffered download of 10 bytes whose destination put_object
raises. -/
def envC5 : Env :=
  { okEnv with bufDownload := fun _ => some 10, putObjectOk := fun _ => false }

/-- Fixture: the destination contributor-tag call fails; everything else
succeeds. -/
def envC6 : Env :=
  { okEnv with tagMeta := fun _ => TagOutcome.errTag "denied" }

/-- Fixture: every source status write is rejected with a non-2xx
response; everything else succeeds. -/
def envC6w : Env :=
  { okEnv with metaWrite := fun _ _ => MetaOutcome.errNon200 "status write rejected" }

/-- Fixture: the terminal status write Failed: None raises a transport
exception; every other status write succeeds. -/
def envC1 : Env :=
  { okEnv with metaWrite := fun _ st =>
      if st == "Failed: None" then MetaOutcome.raised "boom" else MetaOutcome.ok200 }

/-- Fixture: folder F contains exactly one empty subfolder. -/
def envC7 : Env :=
  { okEnv with childrenOf := fun fid =>
      if fid == "F" then
        [{ id := "S", driveId := "d1", name := "SubEmpty", isFolder := true, childCount := 0 }]
      else [] }

/-- Fixture: destination folder creation fails, and the status write of
the resulting Failed status for item sp1 raises a transport exception. -/
def envC8 : Env :=
  { okEnv with
      folderCreate := fun _ => RestOutcome.errData "boom"
      metaWrite := fun s st =>
        if s == "sp1" && st != "Initiating" then MetaOutcome.raised "conn reset"
        else MetaOutcome.ok200 }

/-- Fixture: folder F contains exactly one file child. -/
def envC9a : Env :=
  { okEnv with childrenOf := fun _ =>
      [{ id := "c1", driveId := "d1", name := "kid.txt", isFolder := false, childCount := 0 }] }

/-- Fixture: folder F contains exactly one subfolder that itself has two
children. -/
def envC9b : Env :=
  { okEnv with childrenOf := fun fid =>
      if fid == "F" then
        [{ id := "S2", driveId := "d1", name := "Sub", isFolder := true, childCount := 2 }]
      else [] }

/-- Fixture: folder F contains exactly two file children. -/
def envC10 : Env :=
  { okEnv with childrenOf := fun _ =>
      [{ id := "c1", driveId := "d1", name := "a.txt", isFolder := false, childCount := 0 },
       { id := "c2", driveId := "d1", name := "b.txt", isFolder := false, childCount := 0 }] }

/-- Fixture: a small file item. -/
def fileItemA : UploadItem :=
  { id := "i1", spId := "sp1", driveId := "d1", name := "a.txt",
    fileSize := 10, type := "File" }

/-- Fixture: a file item one byte over the 1 GiB ceiling. -/
def bigFileItem : UploadItem :=
  { id := "i1", spId := "sp1", driveId := "d1", name := "big.bin",
    fileSize := 1073741825, type := "File" }

/-- Fixture: a folder item. -/
def folderItemA : UploadItem :=
  { id := "F", spId := "sp1", driveId := "d1", name := "FolderA",
    fileSize := 0, type := "Folder" }

/-- Fixture: a two-item batch, a folder followed by a small file with a
distinct source list-item id. -/
def c8Batch : List UploadItem :=
  [folderItemA,
   { id := "i2", spId := "sp2", driveId := "d1", name := "b.txt",
     fileSize := 10, type := "File" }]

/-- C2: for every file item, the transfer engine takes the buffered
download-then-upload path exactly when the declared size is at least
100 MiB, and the streaming presigned-URL path exactly when the declared
size is below 100 MiB (src/uploader.py lines 55-62). -/
theorem c2_path_choice (env : Env) (url path : String) (size : Nat) :
    (usedBufferedPath url (upload_graph_file_to_s3 env url path size multipartThreshold).1 ↔
      multipartThreshold ≤ size) ∧
    (usedStreamingPath path (upload_graph_file_to_s3 env url path size multipartThreshold).1 ↔
      size < multipartThreshold) := by
  unfold usedBufferedPath usedStreamingPath upload_graph_file_to_s3
  by_cases h : multipartThreshold ≤ size
  · rw [if_pos h]
    unfold upload_large_graph_file_to_s3
    rcases hb : env.bufDownload url with _ | total
    · simp [hb, h, Nat.not_lt.mpr h]
    · simp only [hb]
      split_ifs <;> simp [h, Nat.not_lt.mpr h]
  · rw [if_neg h]
    rcases hp : env.presignOk path with _ | _ <;>
      rcases hg : env.streamGetOk url with _ | _ <;>
      rcases hs : env.streamPutRes path with c | m | m <;>
      simp [hp, hg, hs, h, Nat.lt_of_not_le h]

/-- C3: a file item whose declared size exceeds the 1 GiB ceiling is
rejected by process_item before any external call: the result is a
failure carrying the size-limit message that directs the user to the
Soteria+ command line client or sftp, and the event trace is empty
(src/main.py lines 148-150). -/
theorem c3_size_ceiling (env : Env) (sp : SharepointDetails) (curate : CurateDetails)
    (user : UserInfo) (item : UploadItem) (folder : Option String) (container : String)
    (h : sizeCeiling < item.fileSize) :
    process_item env sp curate user item folder container =
      ([], { success := false, item := none, message := some sizeLimitMsg }) := by
  unfold process_item
  rw [if_pos h]

/-- Witness for c3_size_ceiling at a concrete 1 GiB + 1 byte item. -/
theorem c3_size_ceiling_witness :
    sizeCeiling < 1073741825 ∧
    process_item okEnv sp0 cur0 user0
      { id := "i1", spId := "sp1", driveId := "d1", name := "big.bin",
        fileSize := 1073741825, type := "File" } none "C" =
      ([], { success := false, item := none, message := some sizeLimitMsg }) :=
  ⟨by decide, c3_size_ceiling okEnv sp0 cur0 user0
    { id := "i1", spId := "sp1", driveId := "d1", name := "big.bin",
      fileSize := 1073741825, type := "File" } none "C" (by decide)⟩

/-- C4 counterexample: the buffered path never compares the downloaded
byte count against the HTTP Content-Length header. In envC4 the header
announces 200 bytes while the body has 100, yet the transfer succeeds and
the upload to the destination is performed, contradicting the claim that
such a mismatch yields success false and suppresses the upload
(src/uploader.py line 103 compares the temp-file size against
len of the downloaded body, not against the header). -/
theorem c4_counterexample :
    envC4.bufDownload "u" = some 100 ∧ envC4.bufHeaderLen "u" = 200 ∧ (100 : Nat) ≠ 200 ∧
    (upload_large_graph_file_to_s3 envC4 "u" "p").2.success = true ∧
    (upload_large_graph_file_to_s3 envC4 "u" "p").1.contains
      (Event.s3Put (quarantineKey "p")) = true := by
  decide

/-- C4 amended: the integrity check of the buffered path compares the
on-disk byte count of the temporary file with the length of the
downloaded body; on a mismatch the result is a failure carrying the
File size mismatch message and no upload to the destination is attempted
(src/uploader.py lines 103-104). -/
theorem c4_amended (env : Env) (url path : String) (n : Nat)
    (hdl : env.bufDownload url = some n) (hn : 0 < n) (hmm : env.diskBytes n ≠ n) :
    upload_large_graph_file_to_s3 env url path =
      ([Event.bufGet url, Event.tempCreate],
       { success := false, status := some 500, item := path,
         error := some ("File size mismatch: expected " ++ toString n ++
           ", got " ++ toString (env.diskBytes n)) }) ∧
    (upload_large_graph_file_to_s3 env url path).1.all (fun e => !isUploadAttempt e) = true := by
  have hne : ¬ n = 0 := Nat.pos_iff_ne_zero.mp hn
  unfold upload_large_graph_file_to_s3
  rw [hdl]
  simp [hne, if_pos hmm, isUploadAttempt]

/-- Witness for c4_amended: 10 bytes downloaded, 5 on disk. -/
theorem c4_amended_witness :
    envC4w.bufDownload "u" = some 10 ∧ (0 : Nat) < 10 ∧ envC4w.diskBytes 10 ≠ 10 ∧
    upload_large_graph_file_to_s3 envC4w "u" "p" =
      ([Event.bufGet "u", Event.tempCreate],
       { success := false, status := some 500, item := "p",
         error := some ("File size mismatch: expected " ++ toString 10 ++
           ", got " ++ toString (envC4w.diskBytes 10)) }) :=
  ⟨rfl, by decide, by decide, (c4_amended envC4w "u" "p" 10 rfl (by decide) (by decide)).1⟩

/-- C5 counterexample: when the destination put_object raises after the
temporary file has been written, the buffered path returns a failure but
never removes the temporary file, contradicting the claim that temporary
storage is released on every failure outcome (src/uploader.py line 126
unlinks only on the success path). -/
theorem c5_counterexample :
    (upload_large_graph_file_to_s3 envC5 "u" "p").2.success = false ∧
    tempLeaked (upload_large_graph_file_to_s3 envC5 "u" "p").1 = true := by
  decide

/-- C5 amended: the buffered path removes its temporary file exactly on
the success outcome; on every failure outcome that occurs after the
temporary file was created, the file is left behind. -/
theorem c5_amended (env : Env) (url path : String) :
    ((upload_large_graph_file_to_s3 env url path).2.success = true →
      (upload_large_graph_file_to_s3 env url path).1.contains Event.tempCreate = true ∧
      (upload_large_graph_file_to_s3 env url path).1.contains Event.tempRemove = true) ∧
    ((upload_large_graph_file_to_s3 env url path).1.contains Event.tempCreate = true →
      (upload_large_graph_file_to_s3 env url path).2.success = false →
      tempLeaked (upload_large_graph_file_to_s3 env url path).1 = true) := by
  unfold upload_large_graph_file_to_s3 tempLeaked
  rcases hb : env.bufDownload url with _ | total
  · simp
  · simp only
    split_ifs <;> simp_all

/-- Witness for c5_amended: the success side at okEnv, the failure side
at envC5. -/
theorem c5_amended_witness :
    (upload_large_graph_file_to_s3 okEnv "u" "p").1.contains Event.tempRemove = true ∧
    tempLeaked (upload_large_graph_file_to_s3 envC5 "u" "p").1 = true :=
  ⟨((c5_amended okEnv "u" "p").1 (by decide)).2,
   (c5_amended envC5 "u" "p").2 (by decide) (by decide)⟩

/-- Helper: below the size ceiling, the first action of process_item is
the container folder creation request, whatever the remote outcomes. -/
theorem process_item_createFolder (env : Env) (sp : SharepointDetails)
    (curate : CurateDetails) (user : UserInfo) (item : UploadItem)
    (folder : Option String) (container : String) (h : ¬ sizeCeiling < item.fileSize) :
    Event.createFolder container ∈ (process_item env sp curate user item folder container).1 := by
  unfold process_item
  rw [if_neg h]
  repeat' split
  all_goals simp

/-- Helper: when the Initiating write of a file item returns a non-2xx
error result, processOneItem still goes on to process the item, so the
container folder creation request of process_item appears in its trace. -/
theorem processOneItem_createFolder (env : Env) (fuel : Nat) (sp : SharepointDetails)
    (curate : CurateDetails) (user : UserInfo) (container : String) (item : UploadItem)
    (m : String)
    (hm : env.metaWrite item.spId "Initiating" = MetaOutcome.errNon200 m)
    (hty : (item.type == "Folder") = false) (hsz : ¬ sizeCeiling < item.fileSize) :
    Event.createFolder container ∈
      (processOneItem env fuel sp curate user container item).1 := by
  unfold processOneItem
  rw [hm]
  simp only [hty, Bool.false_eq_true, if_false]
  have hmem := process_item_createFolder env sp curate user item none container hsz
  simp [hmem]

/-- C6 counterexample: in envC6 the destination contributor-identity tag
call fails, and process_item turns that failure into a failed item result
(src/main.py lines 160-162 raise on a tag failure), contradicting the
claim that a metadata-tagging failure never causes the item being
processed to fail. The message embeds the literal None because line 162
formats r.get of the message key while update_user_meta stores its text
under the error key. -/
theorem c6_counterexample :
    envC6.tagMeta "uuid-1" = TagOutcome.errTag "denied" ∧
    (process_item envC6 sp0 cur0 user0
      { id := "i1", spId := "sp1", driveId := "d1", name := "a.txt",
        fileSize := 10, type := "File" } none "C").2 =
      { success := false, item := none,
        message := some "Error updating user meta: None" } := by
  decide

/-- C6 amended: a source status-write failure that surfaces as a non-2xx
result is swallowed (upload_task ignores the returned dict) and never
prevents attempting the transfer, but a destination contributor-identity
tag failure fails the item being processed, with a message embedding the
literal None in place of the remote error text. -/
theorem c6_amended :
    (∀ (env : Env) (m : String) (fuel : Nat) (sp : SharepointDetails)
      (curate : CurateDetails) (user : UserInfo) (container : String)
      (item : UploadItem),
      env.metaWrite item.spId "Initiating" = MetaOutcome.errNon200 m →
      (item.type == "Folder") = false →
      ¬ sizeCeiling < item.fileSize →
      Event.createFolder container ∈
        (upload_task env fuel sp curate user container [item]).1) ∧
    (∀ (env : Env) (sp : SharepointDetails) (curate : CurateDetails)
      (user : UserInfo) (item : UploadItem) (folder : Option String)
      (container uuid m : String),
      ¬ sizeCeiling < item.fileSize →
      env.folderCreate container = RestOutcome.okData uuid →
      ¬ uuid = "" →
      env.tagMeta uuid = TagOutcome.errTag m →
      (process_item env sp curate user item folder container).2 =
        { success := false, item := none,
          message := some "Error updating user meta: None" }) := by
  constructor
  · intro env m fuel sp curate user container item hm hty hsz
    have hmem := processOneItem_createFolder env fuel sp curate user container item m hm hty hsz
    unfold upload_task
    rcases hr : (processOneItem env fuel sp curate user container item).2 with e | u <;>
      simp [hr, hmem]
  · intro env sp curate user item folder container uuid m hsz hfc huu htag
    unfold process_item
    rw [if_neg hsz, hfc]
    simp only [huu, if_false, htag]

/-- Witness for c6_amended: both conjuncts at concrete inputs. -/
theorem c6_amended_witness :
    Event.createFolder "C" ∈
      (upload_task envC6w 1 sp0 cur0 user0 "C"
        [{ id := "i1", spId := "sp1", driveId := "d1", name := "a.txt",
           fileSize := 10, type := "File" }]).1 ∧
    (process_item envC6 sp0 cur0 user0
      { id := "i1", spId := "sp1", driveId := "d1", name := "a.txt",
        fileSize := 10, type := "File" } none "C").2 =
      { success := false, item := none,
        message := some "Error updating user meta: None" } :=
  ⟨c6_amended.1 envC6w "status write rejected" 1 sp0 cur0 user0 "C"
    { id := "i1", spId := "sp1", driveId := "d1", name := "a.txt",
      fileSize := 10, type := "File" } rfl (by decide) (by decide),
   c6_amended.2 envC6 sp0 cur0 user0
    { id := "i1", spId := "sp1", driveId := "d1", name := "a.txt",
      fileSize := 10, type := "File" } none "C" "uuid-1" "denied"
    (by decide) rfl (by decide) rfl⟩

/-- Helper: over a children list whose folders are all empty, the child
loop of process_folder emits no events and succeeds exactly when no file
child is present; the first file child raises the pydantic
ValidationError of src/main.py line 216, and empty folder children match
neither branch of the loop and are skipped. -/
theorem foldChildren_eval (step : ChildEntry → List Event × Except String Unit)
    (kids : List ChildEntry)
    (hstep : ∀ c ∈ kids, step c =
      ([], if c.isFolder then Except.ok () else Except.error pydanticValidationMsg)) :
    foldChildren step kids =
      ([], if kids.all (fun c => c.isFolder) then Except.ok ()
           else Except.error pydanticValidationMsg) := by
  induction kids with
  | nil => simp [foldChildren]
  | cons c rest ih =>
      have hc := hstep c (List.mem_cons_self c rest)
      have ih2 := ih (fun d hd => hstep d (List.mem_cons_of_mem c hd))
      rcases hcf : c.isFolder with _ | _ <;>
        rw [hcf] at hc <;>
        simp [foldChildren, hc, ih2, List.all_cons, hcf]

/-- C7 counterexample: envC7 expands a folder with zero file children and
one empty subfolder (N = 0, M = 1). The claim demands M + 1 = 2
destination folders, one for the folder itself and one for the empty
subfolder; the run creates only the batch container C and the folder
itself C/FolderA, and no folder for the empty subfolder SubEmpty, because
a child folder with childCount zero matches neither branch of the loop at
src/main.py lines 213-218 and is skipped. -/
theorem c7_counterexample :
    exceptOk (process_folder envC7 3 sp0 cur0 user0 false "FolderA" "F" "C").2 = true ∧
    createdFolderPaths (process_folder envC7 3 sp0 cur0 user0 false "FolderA" "F" "C").1 =
      ["C", "C/FolderA"] ∧
    ((process_folder envC7 3 sp0 cur0 user0 false "FolderA" "F" "C").1.all
      (fun e => !isTransferEvent e)) = true := by
  decide

/-- C7 amended: expanding a folder whose children are files and empty
subfolders creates exactly two destination folders, the batch container
and the folder itself, and none for the empty subfolders; it makes no
transfer attempt at all, and it completes normally exactly when there is
no file child (the first file child raises the pydantic ValidationError
of src/main.py line 216). -/
theorem c7_amended (env : Env) (fuel : Nat) (sp : SharepointDetails)
    (curate : CurateDetails) (user : UserInfo)
    (folderName folderId container uuid1 uuid2 : String)
    (h1 : env.folderCreate container = RestOutcome.okData uuid1) (hu1 : ¬ uuid1 = "")
    (ht : env.tagMeta uuid1 = TagOutcome.okTag)
    (h2 : env.folderCreate (container ++ "/" ++ folderName) = RestOutcome.okData uuid2)
    (hu2 : ¬ uuid2 = "")
    (hl : env.listOk folderId = true)
    (hk : ∀ c ∈ env.childrenOf folderId, c.isFolder = true → c.childCount = 0) :
    process_folder env (fuel + 1) sp curate user false folderName folderId container =
      ([Event.createFolder container, Event.tagNode uuid1,
        Event.createFolder (container ++ "/" ++ folderName)],
       if (env.childrenOf folderId).all (fun c => c.isFolder) then Except.ok ()
       else Except.error pydanticValidationMsg) := by
  have hstep : ∀ c ∈ env.childrenOf folderId,
      (if c.isFolder && 0 < c.childCount then
        process_folder env fuel sp curate user true c.name c.id container
      else if !c.isFolder then ([], Except.error pydanticValidationMsg)
      else ([], Except.ok ())) =
      ([], if c.isFolder then Except.ok () else Except.error pydanticValidationMsg) := by
    intro c hc
    rcases hcf : c.isFolder with _ | _
    · simp [hcf]
    · simp [hcf, hk c hc hcf]
  unfold process_folder
  rw [h1]
  simp only [hu1, if_false, ht]
  rw [h2]
  simp only [hu2, if_false, hl, if_true]
  rw [foldChildren_eval _ _ hstep]
  simp

/-- Witness for c7_amended at envC7: one empty subfolder, no files. -/
theorem c7_amended_witness :
    process_folder envC7 3 sp0 cur0 user0 false "FolderA" "F" "C" =
      ([Event.createFolder "C", Event.tagNode "uuid-1",
        Event.createFolder ("C" ++ "/" ++ "FolderA")],
       Except.ok ()) :=
  (c7_amended envC7 2 sp0 cur0 user0 "FolderA" "F" "C" "uuid-1" "uuid-1" rfl
    (by decide) rfl rfl (by decide) rfl (by decide)).trans (by rfl)

/-- Helper: the conversion of the transfer outcome into the item result
always yields a success flag, with a message exactly on failure. -/
theorem uploadResultToItemResult_spec (u : Except String UploadResult) :
    (uploadResultToItemResult u).success = true ∨
    ((uploadResultToItemResult u).success = false ∧
     ((uploadResultToItemResult u).message).isSome = true) := by
  rcases u with m | r
  · simp [uploadResultToItemResult]
  · by_cases hs : r.success <;> simp [uploadResultToItemResult, hs]

/-- C9 code evaluation at the failing inputs. First conjunct: expanding a
folder with one file child stops with the pydantic ValidationError of
src/main.py line 216 (the synthesized UploadItem omits the required
fileSize field), so the file is never handed to process_item: the trace
ends with the folder provisioning and contains no transfer or
folder-creation event for the child. Second conjunct: expanding a folder
with one non-empty subfolder recurses at line 214 passing the raw listing
dict, and the attribute access folder_item.name at line 203 raises
AttributeError after the recursive call has re-created and re-tagged the
container, so the subfolder itself is never created either. -/
theorem c9_code_eval :
    process_folder envC9a 3 sp0 cur0 user0 false "FolderA" "F" "C" =
      ([Event.createFolder "C", Event.tagNode "uuid-1", Event.createFolder "C/FolderA"],
       Except.error pydanticValidationMsg) ∧
    process_folder envC9b 3 sp0 cur0 user0 false "FolderA" "F" "C" =
      ([Event.createFolder "C", Event.tagNode "uuid-1", Event.createFolder "C/FolderA",
        Event.createFolder "C", Event.tagNode "uuid-1"],
       Except.error dictAttributeErrMsg) :=
  ⟨rfl, rfl⟩

/-- C10 code evaluation. First conjunct: process_item is total and always
yields a success flag with a message on failure, for every environment and
input (the whole body of src/main.py lines 147-175 is inside try/except
and the handler returns a dict). Second conjunct: expanding a folder
whose listing has two file children aborts at the first child with the
pydantic ValidationError of src/main.py line 216 before process_item is
ever invoked, so the second child is never attempted: the trace is
exactly the three folder-provisioning events and contains nothing for
either child. -/
theorem c10_code_eval :
    (∀ (env : Env) (sp : SharepointDetails) (curate : CurateDetails) (user : UserInfo)
      (item : UploadItem) (folder : Option String) (container : String),
      (process_item env sp curate user item folder container).2.success = true ∨
      ((process_item env sp curate user item folder container).2.success = false ∧
       ((process_item env sp curate user item folder container).2.message).isSome = true)) ∧
    process_folder envC10 3 sp0 cur0 user0 false "FolderA" "F" "C" =
      ([Event.createFolder "C", Event.tagNode "uuid-1", Event.createFolder "C/FolderA"],
       Except.error pydanticValidationMsg) := by
  constructor
  · intro env sp curate user item folder container
    unfold process_item
    repeat' split
    all_goals solve
      | simp
      | exact uploadResultToItemResult_spec _
  · rfl

/-- Helper: a trace with no status events contributes no status writes. -/
theorem statusWritesFor_eq_nil (s : String) (evs : List Event)
    (h : evs.all (fun e => !isStatusEvent e) = true) :
    statusWritesFor s evs = [] := by
  induction evs with
  | nil => rfl
  | cons e rest ih =>
      rw [List.all_cons, Bool.and_eq_true] at h
      have h2 := ih h.2
      cases e
      case statusWrite a b => simp [isStatusEvent] at h
      all_goals simpa [statusWritesFor] using h2

/-- Helper: status writes distribute over trace concatenation. -/
theorem statusWritesFor_append (s : String) (a b : List Event) :
    statusWritesFor s (a ++ b) = statusWritesFor s a ++ statusWritesFor s b := by
  simp [statusWritesFor, List.filterMap_append]

/-- Helper: the buffered path performs no status write. -/
theorem no_status_upload_large (env : Env) (url path : String) :
    (upload_large_graph_file_to_s3 env url path).1.all (fun e => !isStatusEvent e) = true := by
  unfold upload_large_graph_file_to_s3
  rcases env.bufDownload url with _ | n
  · simp [isStatusEvent]
  · simp only
    split_ifs <;> simp [isStatusEvent]

/-- Helper: the transfer engine performs no status write. -/
theorem no_status_upload_graph (env : Env) (url path : String) (size threshold : Nat) :
    (upload_graph_file_to_s3 env url path size threshold).1.all
      (fun e => !isStatusEvent e) = true := by
  unfold upload_graph_file_to_s3
  by_cases h1 : size ≥ threshold
  · simpa [h1] using no_status_upload_large env url path
  · simp only [h1, if_false]
    by_cases h2 : env.presignOk path = true
    · simp only [h2, if_true]
      by_cases h3 : env.streamGetOk url = true
      · simp only [h3, if_true]
        rcases env.streamPutRes path with c | m | m <;> simp [isStatusEvent]
      · simp [h3, isStatusEvent]
    · simp [h2, isStatusEvent]

/-- Helper: per-file processing performs no status write (status tagging
happens only in the upload_task loop). -/
theorem no_status_process_item (env : Env) (sp : SharepointDetails) (curate : CurateDetails)
    (user : UserInfo) (item : UploadItem) (folder : Option String) (container : String) :
    (process_item env sp curate user item folder container).1.all
      (fun e => !isStatusEvent e) = true := by
  unfold process_item
  dsimp only
  repeat' split
  all_goals solve
    | rfl
    | simp [isStatusEvent]
    | (rw [List.all_append, Bool.and_eq_true]
       exact ⟨by rfl, no_status_upload_graph _ _ _ _ _⟩)

/-- Helper: the child loop performs no status write when no step does. -/
theorem no_status_foldChildren (step : ChildEntry → List Event × Except String Unit)
    (kids : List ChildEntry)
    (h : ∀ c ∈ kids, (step c).1.all (fun e => !isStatusEvent e) = true) :
    (foldChildren step kids).1.all (fun e => !isStatusEvent e) = true := by
  induction kids with
  | nil => simp [foldChildren]
  | cons c rest ih =>
      have hc := h c (List.mem_cons_self c rest)
      have ih2 := ih (fun d hd => h d (List.mem_cons_of_mem c hd))
      simp only [foldChildren]
      rcases hres : (step c).2 with e | u <;> simp [hres, hc, List.all_append, ih2]

/-- Helper: folder expansion performs no status write. -/
theorem no_status_process_folder (env : Env) : ∀ (fuel : Nat) (sp : SharepointDetails)
    (curate : CurateDetails) (user : UserInfo) (viaDict : Bool)
    (folderName folderId container : String),
    (process_folder env fuel sp curate user viaDict folderName folderId container).1.all
      (fun e => !isStatusEvent e) = true := by
  intro fuel
  induction fuel with
  | zero =>
      intro sp curate user viaDict folderName folderId container
      simp [process_folder]
  | succ f ih =>
      intro sp curate user viaDict folderName folderId container
      unfold process_folder
      dsimp only
      repeat' split
      all_goals solve
        | rfl
        | simp [isStatusEvent]
        | (rw [List.all_append, Bool.and_eq_true]
           refine ⟨by rfl, no_status_foldChildren _ _ ?_⟩
           intro c hc
           by_cases hb1 : (c.isFolder && decide (0 < c.childCount)) = true
           · rw [if_pos hb1]
             exact ih sp curate user true c.name c.id container
           · rw [if_neg hb1]
             by_cases hb2 : (!c.isFolder) = true
             · rw [if_pos hb2]; rfl
             · rw [if_neg hb2]; rfl)

/-- Helper: the handler write emits exactly one Failed status write. -/
theorem handlerWrite_fst (env : Env) (spId msg : String) :
    (handlerWrite env spId msg).1 = [Event.statusWrite spId ("Failed: " ++ msg)] := by
  unfold handlerWrite
  dsimp only
  split <;> rfl

/-- Helper: under a non-raising environment the handler write completes
normally. -/
theorem handlerWrite_eq (env : Env) (spId msg : String) (hnr : metaNeverRaises env) :
    handlerWrite env spId msg =
      ([Event.statusWrite spId ("Failed: " ++ msg)], Except.ok ()) := by
  unfold handlerWrite
  dsimp only
  rcases h : env.metaWrite spId ("Failed: " ++ msg) with _ | m2 | m2
  · rfl
  · rfl
  · exact absurd h (hnr _ _ _)

/-- Helper: under a non-raising environment the terminal write is a
single status write that completes normally. -/
theorem writeTerminal_eq (env : Env) (spId status : String) (hnr : metaNeverRaises env) :
    writeTerminal env spId status = ([Event.statusWrite spId status], Except.ok ()) := by
  unfold writeTerminal
  rcases h : env.metaWrite spId status with _ | m | m
  · rfl
  · rfl
  · exact absurd h (hnr _ _ _)

/-- Helper: the empty trace has no status writes. -/
theorem statusWritesFor_nil (s : String) : statusWritesFor s [] = [] := rfl

/-- Helper: one status write contributes its status exactly when the ids
match. -/
theorem statusWritesFor_cons (s a b : String) (evs : List Event) :
    statusWritesFor s (Event.statusWrite a b :: evs) =
      (if a = s then [b] else []) ++ statusWritesFor s evs := by
  by_cases h : a = s <;> simp [statusWritesFor, h]

/-- Helper: under a non-raising environment each per-item pass completes
normally, and its status writes for its own item are exactly Initiating
followed by one terminal status. -/
theorem processOneItem_spec (env : Env) (fuel : Nat) (sp : SharepointDetails)
    (curate : CurateDetails) (user : UserInfo) (container : String) (item : UploadItem)
    (hnr : metaNeverRaises env) :
    (processOneItem env fuel sp curate user container item).2 = Except.ok () ∧
    ∃ t, statusWritesFor item.spId (processOneItem env fuel sp curate user container item).1 =
        ["Initiating", t] ∧ (t = "Success" ∨ ∃ m, t = "Failed: " ++ m) := by
  have hpf := statusWritesFor_eq_nil item.spId _
    (no_status_process_folder env fuel sp curate user false item.name item.id container)
  have hpi := statusWritesFor_eq_nil item.spId _
    (no_status_process_item env sp curate user item none container)
  unfold processOneItem
  rcases hI : env.metaWrite item.spId "Initiating" with _ | m | m
  · dsimp only
    by_cases hty : (item.type == "Folder") = true
    · rw [if_pos hty]
      rcases hr : (process_folder env fuel sp curate user false item.name item.id
          container).2 with e | u
      · dsimp only
        rw [handlerWrite_eq env item.spId e hnr]
        refine ⟨rfl, "Failed: " ++ e, ?_, Or.inr ⟨e, rfl⟩⟩
        simp [statusWritesFor_append, statusWritesFor_cons, statusWritesFor_nil, hpf]
      · dsimp only
        rw [writeTerminal_eq env item.spId "Success" hnr]
        refine ⟨rfl, "Success", ?_, Or.inl rfl⟩
        simp [statusWritesFor_append, statusWritesFor_cons, statusWritesFor_nil, hpf]
    · rw [if_neg hty]
      by_cases hs : (process_item env sp curate user item none container).2.success = true
      · dsimp only
        rw [if_pos hs, writeTerminal_eq env item.spId "Success" hnr]
        refine ⟨rfl, "Success", ?_, Or.inl rfl⟩
        simp [statusWritesFor_append, statusWritesFor_cons, statusWritesFor_nil, hpi]
      · dsimp only
        rw [if_neg hs, writeTerminal_eq env item.spId "Failed: None" hnr]
        refine ⟨rfl, "Failed: None", ?_, Or.inr ⟨"None", rfl⟩⟩
        simp [statusWritesFor_append, statusWritesFor_cons, statusWritesFor_nil, hpi]
  · dsimp only
    by_cases hty : (item.type == "Folder") = true
    · rw [if_pos hty]
      rcases hr : (process_folder env fuel sp curate user false item.name item.id
          container).2 with e | u
      · dsimp only
        rw [handlerWrite_eq env item.spId e hnr]
        refine ⟨rfl, "Failed: " ++ e, ?_, Or.inr ⟨e, rfl⟩⟩
        simp [statusWritesFor_append, statusWritesFor_cons, statusWritesFor_nil, hpf]
      · dsimp only
        rw [writeTerminal_eq env item.spId "Success" hnr]
        refine ⟨rfl, "Success", ?_, Or.inl rfl⟩
        simp [statusWritesFor_append, statusWritesFor_cons, statusWritesFor_nil, hpf]
    · rw [if_neg hty]
      by_cases hs : (process_item env sp curate user item none container).2.success = true
      · dsimp only
        rw [if_pos hs, writeTerminal_eq env item.spId "Success" hnr]
        refine ⟨rfl, "Success", ?_, Or.inl rfl⟩
        simp [statusWritesFor_append, statusWritesFor_cons, statusWritesFor_nil, hpi]
      · dsimp only
        rw [if_neg hs, writeTerminal_eq env item.spId "Failed: None" hnr]
        refine ⟨rfl, "Failed: None", ?_, Or.inr ⟨"None", rfl⟩⟩
        simp [statusWritesFor_append, statusWritesFor_cons, statusWritesFor_nil, hpi]
  · exact absurd hI (hnr _ _ _)

/-- Helper: the handler write never writes a status for another item id. -/
theorem statusWritesFor_handlerWrite_other (env : Env) (spId msg s : String)
    (hne : ¬ spId = s) :
    statusWritesFor s (handlerWrite env spId msg).1 = [] := by
  simp [handlerWrite_fst, statusWritesFor_cons, statusWritesFor_nil, hne]

/-- Helper: the terminal write never writes a status for another item id. -/
theorem statusWritesFor_writeTerminal_other (env : Env) (spId status s : String)
    (hne : ¬ spId = s) :
    statusWritesFor s (writeTerminal env spId status).1 = [] := by
  unfold writeTerminal
  rcases h : env.metaWrite spId status with _ | m | m <;>
    simp [handlerWrite_fst, statusWritesFor_cons, statusWritesFor_nil, hne]

/-- Helper: a per-item pass never writes a status for another item id. -/
theorem statusWritesFor_processOneItem_other (env : Env) (fuel : Nat)
    (sp : SharepointDetails) (curate : CurateDetails) (user : UserInfo)
    (container : String) (item : UploadItem) (s : String) (hne : ¬ item.spId = s) :
    statusWritesFor s (processOneItem env fuel sp curate user container item).1 = [] := by
  have hpf := statusWritesFor_eq_nil s _
    (no_status_process_folder env fuel sp curate user false item.name item.id container)
  have hpi := statusWritesFor_eq_nil s _
    (no_status_process_item env sp curate user item none container)
  have hh : ∀ msg, statusWritesFor s (handlerWrite env item.spId msg).1 = [] :=
    fun msg => statusWritesFor_handlerWrite_other env item.spId msg s hne
  have hw : ∀ st, statusWritesFor s (writeTerminal env item.spId st).1 = [] :=
    fun st => statusWritesFor_writeTerminal_other env item.spId st s hne
  unfold processOneItem
  rcases hI : env.metaWrite item.spId "Initiating" with _ | m | m <;> dsimp only
  · split
    · rcases hr : (process_folder env fuel sp curate user false item.name item.id
          container).2 with e | u <;> dsimp only <;>
        simp [statusWritesFor_append, statusWritesFor_cons, statusWritesFor_nil,
          hne, hpf, hh, hw]
    · simp [statusWritesFor_append, statusWritesFor_cons, statusWritesFor_nil,
        hne, hpi, hw]
  · split
    · rcases hr : (process_folder env fuel sp curate user false item.name item.id
          container).2 with e | u <;> dsimp only <;>
        simp [statusWritesFor_append, statusWritesFor_cons, statusWritesFor_nil,
          hne, hpf, hh, hw]
    · simp [statusWritesFor_append, statusWritesFor_cons, statusWritesFor_nil,
        hne, hpi, hw]
  · simp [statusWritesFor_append, statusWritesFor_cons, statusWritesFor_nil, hne, hh]

/-- Helper: the batch loop never writes a status for an id that belongs
to none of its items. -/
theorem statusWritesFor_upload_task_other (env : Env) (fuel : Nat)
    (sp : SharepointDetails) (curate : CurateDetails) (user : UserInfo)
    (container : String) :
    ∀ (items : List UploadItem) (s : String), (∀ it ∈ items, ¬ it.spId = s) →
    statusWritesFor s (upload_task env fuel sp curate user container items).1 = [] := by
  intro items
  induction items with
  | nil => intro s h; rfl
  | cons item rest ih =>
      intro s h
      have h1 : ¬ item.spId = s := h item (List.mem_cons_self item rest)
      have h2 := ih s (fun it hit => h it (List.mem_cons_of_mem item hit))
      have hother := statusWritesFor_processOneItem_other env fuel sp curate user
        container item s h1
      unfold upload_task
      rcases hr : (processOneItem env fuel sp curate user container item).2 with e | u <;>
        simp [hr, hother, statusWritesFor_append, h2]


/-- C1 counterexample: in envC1 the terminal status write of the single
file item raises a transport exception; the per-item handler of
src/main.py lines 118-120 then writes one more Failed status, so the item
receives two terminal status write attempts instead of exactly one. The
first terminal status is the literal Failed: None because line 113 reads
the absent error key of the process_item result. -/
theorem c1_counterexample :
    statusWritesFor "sp1"
      (upload_task envC1 1 sp0 cur0 user0 "C" [bigFileItem]).1 =
      ["Initiating", "Failed: None", "Failed: boom"] ∧
    (terminalWritesFor "sp1"
      (upload_task envC1 1 sp0 cur0 user0 "C" [bigFileItem]).1).length = 2 := by
  decide

/-- C1 amended: when no source status write raises a transport exception
and the items of the batch carry distinct source list-item ids, every
top-level UploadItem receives exactly one Initiating write followed by
exactly one terminal status, either Success or a Failed-prefixed string.
Items synthesized during folder expansion receive no status writes at
all; in fact no child UploadItem is ever successfully synthesized. -/
theorem c1_amended (env : Env) (fuel : Nat) (sp : SharepointDetails)
    (curate : CurateDetails) (user : UserInfo) (container : String)
    (items : List UploadItem) (hnr : metaNeverRaises env)
    (hnd : (items.map (fun it => it.spId)).Nodup) :
    ∀ item ∈ items,
      ∃ t, statusWritesFor item.spId
          (upload_task env fuel sp curate user container items).1 =
        ["Initiating", t] ∧ (t = "Success" ∨ ∃ m, t = "Failed: " ++ m) := by
  induction items with
  | nil => intro item h; cases h
  | cons hd rest ih =>
      rw [List.map_cons, List.nodup_cons] at hnd
      intro item hmem
      have hspec := processOneItem_spec env fuel sp curate user container hd hnr
      unfold upload_task
      dsimp only
      rw [hspec.1]
      dsimp only
      rcases List.mem_cons.mp hmem with rfl | hmem
      · obtain ⟨t, ht, hshape⟩ := hspec.2
        refine ⟨t, ?_, hshape⟩
        have hother : ∀ it ∈ rest, ¬ it.spId = item.spId := by
          intro it hit hEq
          exact hnd.1 (List.mem_map.mpr ⟨it, hit, hEq⟩)
        rw [statusWritesFor_append, ht,
          statusWritesFor_upload_task_other env fuel sp curate user container rest
            item.spId hother]
        simp
      · obtain ⟨t, ht, hshape⟩ := ih hnd.2 item hmem
        refine ⟨t, ?_, hshape⟩
        have hne : ¬ hd.spId = item.spId := by
          intro hEq
          exact hnd.1 (List.mem_map.mpr ⟨item, hmem, hEq.symm⟩)
        rw [statusWritesFor_append,
          statusWritesFor_processOneItem_other env fuel sp curate user container hd
            item.spId hne, ht]
        simp

/-- Witness for c1_amended: a one-item batch in the all-success
environment. -/
theorem c1_amended_witness :
    ∃ t, statusWritesFor "sp1"
        (upload_task okEnv 1 sp0 cur0 user0 "C" [fileItemA]).1 =
      ["Initiating", t] ∧ (t = "Success" ∨ ∃ m, t = "Failed: " ++ m) :=
  c1_amended okEnv 1 sp0 cur0 user0 "C" [fileItemA]
    (fun s st m h => MetaOutcome.noConfusion h) (by decide) fileItemA
    (List.mem_cons_self fileItemA [])

/-- C8 counterexample: in envC8 the first item of the batch fails (its
folder provisioning is rejected) and the Failed status write of the
per-item handler itself raises; the exception escapes the loop
(src/main.py lines 118-125), so the second item is never attempted and
receives no status write at all, contradicting the claim that an earlier
item failure never prevents the later sibling from being attempted. -/
theorem c8_counterexample :
    statusWritesFor "sp2" (upload_task envC8 2 sp0 cur0 user0 "C" c8Batch).1 = [] ∧
    exceptErrMsg (upload_task envC8 2 sp0 cur0 user0 "C" c8Batch).2 = some "conn reset" ∧
    statusWritesFor "sp1" (upload_task envC8 2 sp0 cur0 user0 "C" c8Batch).1 =
      ["Initiating", "Failed: Error creating container folder: None"] := by
  decide

/-- C8 amended: when no source status write raises a transport exception,
every item of the batch is attempted and receives a terminal status,
whatever the outcomes (including failures) of the items before it. -/
theorem c8_amended (env : Env) (fuel : Nat) (sp : SharepointDetails)
    (curate : CurateDetails) (user : UserInfo) (container : String)
    (items : List UploadItem) (hnr : metaNeverRaises env) :
    ∀ item ∈ items, ∃ t,
      t ∈ statusWritesFor item.spId
        (upload_task env fuel sp curate user container items).1 ∧
      (t = "Success" ∨ ∃ m, t = "Failed: " ++ m) := by
  induction items with
  | nil => intro item h; cases h
  | cons hd rest ih =>
      intro item hmem
      have hspec := processOneItem_spec env fuel sp curate user container hd hnr
      unfold upload_task
      dsimp only
      rw [hspec.1]
      dsimp only
      rcases List.mem_cons.mp hmem with rfl | hmem
      · obtain ⟨t, ht, hshape⟩ := hspec.2
        refine ⟨t, ?_, hshape⟩
        rw [statusWritesFor_append, ht]
        simp
      · obtain ⟨t, ht, hshape⟩ := ih item hmem
        refine ⟨t, ?_, hshape⟩
        rw [statusWritesFor_append]
        exact List.mem_append_right _ ht

/-- Witness for c8_amended: the second item of a two-item batch in which
the first item fails (its contributor tag is rejected) still reaches a
terminal status. -/
theorem c8_amended_witness :
    ∃ t, t ∈ statusWritesFor "sp2"
        (upload_task envC6 2 sp0 cur0 user0 "C" c8Batch).1 ∧
      (t = "Success" ∨ ∃ m, t = "Failed: " ++ m) :=
  c8_amended envC6 2 sp0 cur0 user0 "C" c8Batch
    (fun s st m h => MetaOutcome.noConfusion h)
    { id := "i2", spId := "sp2", driveId := "d1", name := "b.txt",
      fileSize := 10, type := "File" } (by decide)

end CurateUpload
